import Mathlib

/-!
Verification of the freebird event-ingestion pipeline.

Shallow embedding of the core of the repository:
  - storage/database.py   (sightings table and its queries)
  - pipeline.py           (poll cycle, per-event processing, health alerting)
  - vicohome/auth.py      (credential manager)
  - vicohome/api.py       (authenticated request with auto-retry)
  - analysis/birdnet.py   (acoustic classifier wrapper)

Machine floats (timestamps, confidences) are embedded as rationals; the
random sighting id (a short uuid4 hex string) is embedded as a deterministic fresh
id drawn from a counter carried in the database state; SQLite behaviour of
the UNIQUE constraint on trace_id (IntegrityError on duplicate INSERT,
leaving the table unchanged) is embedded as an Except error.  External
effects (image and video downloads, the vision model call) are embedded as
oracle inputs, matching the code paths that consume their results.
-/

namespace Freebird

/-- Rows of the sightings table, per the schema in storage/database.py.
The created_at column is omitted: nothing in the embedded operations reads
or writes it. -/
structure SightingRow where
  id : String
  trace_id : String
  species : Option String
  species_latin : Option String
  confidence : Option ℚ
  timestamp : ℚ
  device_name : String
  video_path : Option String
  image_path : Option String
  audio_path : Option String
  is_lifer : Bool
  deriving DecidableEq, Repr

/-- Database state: the sightings table plus the id-generation source
(embedding uuid4 as a fresh counter). -/
structure DBState where
  sightings : List SightingRow
  nextId : Nat
  deriving DecidableEq, Repr

/-- Database.has_trace_id: SELECT 1 FROM sightings WHERE trace_id = ?. -/
def has_trace_id (db : DBState) (trace_id : String) : Bool :=
  db.sightings.any (fun r => r.trace_id == trace_id)

/-- Database.is_lifer: returns False for a falsy species, otherwise True
iff no row has that exact species value. -/
def is_lifer (db : DBState) (species : String) : Bool :=
  if species == "" then false
  else !(db.sightings.any (fun r => r.species == some species))

/-- Database.insert_sighting: INSERT with species columns NULL.  The
trace_id column is UNIQUE, so a duplicate insert raises IntegrityError and
leaves the table unchanged; that is embedded as the error branch. -/
def insert_sighting (db : DBState) (trace_id : String) (timestamp : ℚ)
    (device_name : String) (image_path : Option String) :
    Except String (String × DBState) :=
  if db.sightings.any (fun r => r.trace_id == trace_id) then
    Except.error "IntegrityError: UNIQUE constraint failed: sightings.trace_id"
  else
    let sighting_id := "s" ++ toString db.nextId
    Except.ok (sighting_id,
      { sightings := db.sightings ++
          [{ id := sighting_id, trace_id := trace_id, species := none,
             species_latin := none, confidence := none, timestamp := timestamp,
             device_name := device_name, video_path := none,
             image_path := image_path, audio_path := none, is_lifer := false }],
        nextId := db.nextId + 1 })

/-- Application of the SET clause of update_species to one row. -/
def speciesUpd (species species_latin : Option String) (confidence : Option ℚ)
    (lifer : Bool) (r : SightingRow) : SightingRow :=
  { r with species := species, species_latin := species_latin,
           confidence := confidence, is_lifer := lifer }

/-- Database.update_species: sets the four species columns of the row with
the given id. -/
def update_species (db : DBState) (sighting_id : String)
    (species species_latin : Option String) (confidence : Option ℚ)
    (lifer : Bool) : DBState :=
  { db with sightings := db.sightings.map (fun r =>
      if r.id == sighting_id then speciesUpd species species_latin confidence lifer r
      else r) }

/-- Application of the SET clause of update_media_paths to one row:
only the provided media columns change. -/
def mediaUpd (video_path audio_path image_path : Option String)
    (r : SightingRow) : SightingRow :=
  { r with
    video_path := match video_path with
      | some v => some v
      | none => r.video_path,
    audio_path := match audio_path with
      | some a => some a
      | none => r.audio_path,
    image_path := match image_path with
      | some i => some i
      | none => r.image_path }

/-- Database.update_media_paths: sets only the provided media columns of
the row with the given id; with no provided column it is a no-op. -/
def update_media_paths (db : DBState) (sighting_id : String)
    (video_path audio_path image_path : Option String) : DBState :=
  if video_path.isNone && audio_path.isNone && image_path.isNone then db
  else
    { db with sightings := db.sightings.map (fun r =>
        if r.id == sighting_id then mediaUpd video_path audio_path image_path r
        else r) }

/-- Per-object subcategory classification attached to a motion event,
per vicohome/models.py. -/
structure SubcategoryInfo where
  object_type : String
  object_name : String
  bird_std_name : String
  confidence : ℚ
  deriving DecidableEq, Repr

/-- Motion event pulled from the remote source, per vicohome/models.py
(fields the pipeline consumes). -/
structure MotionEvent where
  trace_id : String
  timestamp : ℚ
  device_name : String
  image_url : String
  video_url : String
  subcategory_info_list : List SubcategoryInfo
  deriving DecidableEq, Repr

/-- MotionEvent.bird_name: first subcategory entry of the bird kind with a
truthy name, else the empty string. -/
def MotionEvent.bird_name (e : MotionEvent) : String :=
  match e.subcategory_info_list.find?
      (fun i => i.object_type == "bird" && i.object_name != "") with
  | some i => i.object_name
  | none => ""

/-- MotionEvent.bird_latin: first subcategory entry of the bird kind with a
truthy scientific name, else the empty string. -/
def MotionEvent.bird_latin (e : MotionEvent) : String :=
  match e.subcategory_info_list.find?
      (fun i => i.object_type == "bird" && i.bird_std_name != "") with
  | some i => i.bird_std_name
  | none => ""

/-- MotionEvent.bird_confidence: confidence of the first subcategory entry
of the bird kind, else zero. -/
def MotionEvent.bird_confidence (e : MotionEvent) : ℚ :=
  match e.subcategory_info_list.find? (fun i => i.object_type == "bird") with
  | some i => i.confidence
  | none => 0

/-- Structured result of the image classifier, per analysis/vision.py
(fields the pipeline consumes). -/
structure VisionResult where
  is_bird : Bool
  species : Option String
  species_latin : Option String
  confidence : Option String
  deriving DecidableEq, Repr

/-- Truthiness of an optional string, as Python evaluates it: None and the
empty string are falsy. -/
def optStrTruthy : Option String → Bool
  | none => false
  | some s => s != ""

/-- Confidence mapping in Pipeline._process_event: the dict
high to 0.9, medium to 0.7, low to 0.4, looked up at (confidence or "")
with default 0.5.  Floats embedded as rationals. -/
def confidence_map (label : Option String) : ℚ :=
  let key := match label with
    | some s => s
    | none => ""
  if key == "high" then 9 / 10
  else if key == "medium" then 7 / 10
  else if key == "low" then 4 / 10
  else 1 / 2

/-- Oracle inputs standing for the external effects consumed by
Pipeline._process_event: the downloaded keyshot path, the vision model
outcome (none embeds both a skipped call and a call whose failure was
swallowed and returned None), and the downloaded video path. -/
structure EventInputs where
  image_path : Option String
  vision : Option VisionResult
  video_path : Option String
  deriving DecidableEq, Repr

/-- Observable outcome of Pipeline._process_event: the generated sighting
id, the resolved species fields, and whether a lifer alert was sent. -/
structure ProcessResult where
  sighting_id : String
  species : Option String
  species_latin : Option String
  confidence : Option ℚ
  is_lifer : Bool
  deriving DecidableEq, Repr

/-- Resolved species fields as computed in _process_event: species, latin
name, confidence, lifer flag. -/
def ResolvedSpecies : Type :=
  Option String × Option String × Option ℚ × Bool

/-- Step 3 of Pipeline._process_event, the guarded vision branch: with a
downloaded keyshot and a vision result that is a bird with a truthy
species, take the vision species fields, map the confidence label, and
query the lifer flag against the table as of the insert; otherwise leave
all fields at their initializers. -/
def vision_resolution (db1 : DBState) (image_path : Option String)
    (vision : Option VisionResult) : ResolvedSpecies :=
  match image_path, vision with
  | some _, some v =>
    if v.is_bird && optStrTruthy v.species then
      (v.species, v.species_latin, some (confidence_map v.confidence),
       is_lifer db1 (match v.species with | some s => s | none => ""))
    else (none, none, none, false)
  | _, _ => (none, none, none, false)

/-- Step 5 of Pipeline._process_event: with no species resolved yet and a
truthy vendor bird id on the event, use the vendor fields and query the
lifer flag against the table as of that point. -/
def vendor_fallback (db2 : DBState) (e : MotionEvent)
    (step3 : ResolvedSpecies) : ResolvedSpecies :=
  if !optStrTruthy step3.1 && e.bird_name != "" then
    (some e.bird_name, some e.bird_latin, some e.bird_confidence,
     is_lifer db2 e.bird_name)
  else step3

/-- Pipeline._process_event: insert the sighting with species columns
NULL, resolve species from the vision result when accepted, record the
video path, fall back to the vendor bird id when no species was resolved,
then persist the species columns and lifer flag. -/
def process_event (db : DBState) (e : MotionEvent) (inp : EventInputs) :
    Except String (DBState × ProcessResult) :=
  match insert_sighting db e.trace_id e.timestamp e.device_name inp.image_path with
  | Except.error m => Except.error m
  | Except.ok (sighting_id, db1) =>
    let step3 := vision_resolution db1 inp.image_path inp.vision
    let db2 := match inp.video_path with
      | some vp => update_media_paths db1 sighting_id (some vp) none none
      | none => db1
    let step5 := vendor_fallback db2 e step3
    let db3 := update_species db2 sighting_id step5.1 step5.2.1 step5.2.2.1
      step5.2.2.2
    Except.ok (db3, ⟨sighting_id, step5.1, step5.2.1, step5.2.2.1, step5.2.2.2⟩)

/-- Pipeline._poll_cycle, generic in the per-event processing step exactly
as the driver is generic in self._process_event: skip events whose trace id
is already stored, otherwise process; the driver wraps no handler around
the processing call, so a processing error propagates out of the cycle. -/
def poll_cycle_with (proc : DBState → MotionEvent → Except String DBState) :
    DBState → List MotionEvent → Except String DBState
  | db, [] => Except.ok db
  | db, e :: rest =>
    if has_trace_id db e.trace_id then poll_cycle_with proc db rest
    else
      match proc db e with
      | Except.error m => Except.error m
      | Except.ok db' => poll_cycle_with proc db' rest

/-- Pipeline._poll_cycle instantiated with _process_event, over the fetched
events paired with their effect oracles. -/
def poll_cycle (db : DBState) :
    List (MotionEvent × EventInputs) → Except String DBState
  | [] => Except.ok db
  | (e, inp) :: rest =>
    if has_trace_id db e.trace_id then poll_cycle db rest
    else
      match process_event db e inp with
      | Except.error m => Except.error m
      | Except.ok (db', _) => poll_cycle db' rest

/-- Repeated poll cycles: each cycle sees its own fetched (overlapping)
window of events. -/
def run_cycles (db : DBState) :
    List (List (MotionEvent × EventInputs)) → Except String DBState
  | [] => Except.ok db
  | c :: cs =>
    match poll_cycle db c with
    | Except.error m => Except.error m
    | Except.ok db' => run_cycles db' cs

/-- Number of sightings rows holding the given trace id. -/
def countTrace (db : DBState) (trace_id : String) : Nat :=
  (db.sightings.filter (fun r => r.trace_id == trace_id)).length

/-- Conservative client-side token lifetime from vicohome/auth.py: 23 hours,
against the 24 hour server-side expiry. -/
def TOKEN_TTL_SECONDS : ℚ := 23 * 60 * 60

/-- Credential manager state, per vicohome/auth.py: the in-memory token and
expiry plus the persisted cache file content (none embeds an absent file). -/
structure AuthState where
  token : Option String
  expires_at : ℚ
  cache : Option (String × ℚ)
  deriving DecidableEq, Repr

/-- AuthManager._login on the success path: the server-issued token is an
oracle input; the expiry is now plus the conservative TTL, and the token is
persisted to the cache file. -/
def auth_login (now : ℚ) (serverToken : String) : String × AuthState :=
  (serverToken,
   { token := some serverToken, expires_at := now + TOKEN_TTL_SECONDS,
     cache := some (serverToken, now + TOKEN_TTL_SECONDS) })

/-- AuthManager.get_token: return the cached token while it is truthy and
the current time is strictly before the recorded expiry, else log in. -/
def get_token (st : AuthState) (now : ℚ) (serverToken : String) :
    String × AuthState :=
  match st.token with
  | some t =>
    if t ≠ "" ∧ now < st.expires_at then (t, st) else auth_login now serverToken
  | none => auth_login now serverToken

/-- AuthManager.invalidate: discard the in-memory token and expiry and
delete the persisted cache file, unconditionally. -/
def invalidate (_st : AuthState) : AuthState :=
  { token := none, expires_at := 0, cache := none }

/-- Fixed set of auth error codes from vicohome/auth.py. -/
def AUTH_ERROR_CODES : List Int := [-1024, -1025, -1026, -1027]

/-- Structured response body: the result and code fields (none embeds an
absent or non-integer field) and the msg field. -/
structure ApiBody where
  result : Option Int
  code : Option Int
  msg : Option String
  deriving DecidableEq, Repr

/-- Whether the first list is a leading segment of the second. -/
def listLeadsWith : List Char → List Char → Bool
  | [], _ => true
  | _ :: _, [] => false
  | p :: ps, c :: cs => p == c && listLeadsWith ps cs

/-- Whether the pattern occurs anywhere inside the list. -/
def charsContain (pat : List Char) : List Char → Bool
  | [] => pat.isEmpty
  | c :: cs => listLeadsWith pat (c :: cs) || charsContain pat cs

/-- Python substring membership kw in msg. -/
def strContainsSub (s pat : String) : Bool :=
  charsContain pat.toList s.toList

/-- AuthManager.is_auth_error: the result field (falling back to the code
field) lies in the fixed auth-error code set, or the lowercased msg
mentions token, auth or login. -/
def is_auth_error (b : ApiBody) : Bool :=
  let code := match b.result with
    | some c => some c
    | none => b.code
  (match code with
   | some c => AUTH_ERROR_CODES.contains c
   | none => false) ||
  (let msg := (match b.msg with | some m => m | none => "").toLower
   strContainsSub msg "token" || strContainsSub msg "auth" ||
     strContainsSub msg "login")

/-- Outcome of one HTTP attempt in VicoHomeAPI._request: a transport error
raised by raise_for_status, an HTML payload, or a JSON body. -/
inductive ApiResponse where
  | transportError (msg : String)
  | html
  | json (body : ApiBody)
  deriving DecidableEq, Repr

/-- Whether a response signals an authentication failure for the retry
logic of _request: an HTML payload, or a JSON body that is_auth_error
accepts; a transport error propagates without the retry dance. -/
def auth_fail_signal : ApiResponse → Bool
  | ApiResponse.transportError _ => false
  | ApiResponse.html => true
  | ApiResponse.json b => is_auth_error b

deriving instance DecidableEq for Except

/-- Observable trace of one VicoHomeAPI._request call: its result, how many
HTTP attempts it made, how many times it invalidated the credential, the
authorization tokens it sent, and the final credential state. -/
structure RequestTrace where
  result : Except String ApiBody
  attempts : Nat
  invalidations : Nat
  tokensUsed : List String
  finalAuth : AuthState
  deriving DecidableEq, Repr

/-- Second loop iteration of VicoHomeAPI._request, entered after the first
attempt signalled an auth failure and the credential was invalidated: any
auth failure here raises instead of retrying. -/
def second_attempt (stI : AuthState) (now : ℚ) (serverToken2 : String)
    (t0 : String) (resp1 : ApiResponse) : RequestTrace :=
  let p := get_token stI now serverToken2
  match resp1 with
  | ApiResponse.transportError m =>
    ⟨Except.error m, 2, 1, [t0, p.1], p.2⟩
  | ApiResponse.html =>
    ⟨Except.error "VicoHome API returned HTML after token refresh", 2, 1,
     [t0, p.1], p.2⟩
  | ApiResponse.json b =>
    if is_auth_error b then
      ⟨Except.error "VicoHome auth failed after retry", 2, 1, [t0, p.1], p.2⟩
    else ⟨Except.ok b, 2, 1, [t0, p.1], p.2⟩

/-- VicoHomeAPI._request: two-iteration loop; each attempt obtains a token
via get_token and posts; an HTML payload or an auth-error body on the first
attempt invalidates the credential and retries once; on the second attempt
either failure kind raises; a transport error raises immediately.  The
attempt outcomes and the server tokens issued by any logins are oracle
inputs. -/
def request (st : AuthState) (now : ℚ) (serverToken1 serverToken2 : String)
    (resp0 resp1 : ApiResponse) : RequestTrace :=
  let p := get_token st now serverToken1
  match resp0 with
  | ApiResponse.transportError m => ⟨Except.error m, 1, 0, [p.1], p.2⟩
  | ApiResponse.html => second_attempt (invalidate p.2) now serverToken2 p.1 resp1
  | ApiResponse.json b =>
    if is_auth_error b then
      second_attempt (invalidate p.2) now serverToken2 p.1 resp1
    else ⟨Except.ok b, 1, 0, [p.1], p.2⟩

/-- Acoustic confidence threshold from config.py, default 0.5. -/
def BIRDNET_CONFIDENCE_THRESHOLD : ℚ := 1 / 2

/-- One row of the acoustic model output consumed by BirdAnalyzer.analyze. -/
structure Prediction where
  species_name : String
  confidence : ℚ
  deriving DecidableEq, Repr

/-- Accepted acoustic detection, per analysis/birdnet.py. -/
structure BirdDetection where
  species : String
  species_latin : String
  confidence : ℚ
  deriving DecidableEq, Repr

/-- Split a character list at the first occurrence of the separator. -/
def splitOnceChar (sep : Char) : List Char → Option (List Char × List Char)
  | [] => none
  | c :: cs =>
    if c == sep then some ([], cs)
    else
      match splitOnceChar sep cs with
      | some p => some (c :: p.1, p.2)
      | none => none

/-- Python species_name.split with separator underscore and maxsplit one:
the scientific name before the first underscore and the common name after
it; with no underscore both are the whole string. -/
def split_species_name (s : String) : String × String :=
  match splitOnceChar '_' s.toList with
  | some p => (String.mk p.1, String.mk p.2)
  | none => (s, s)

/-- Loop body of BirdAnalyzer.analyze: skip rows below the threshold, keep
the strictly highest-confidence detection seen so far. -/
def analyze_step (best : Option BirdDetection) (row : Prediction) :
    Option BirdDetection :=
  if row.confidence < BIRDNET_CONFIDENCE_THRESHOLD then best
  else
    let p := split_species_name row.species_name
    match best with
    | none => some ⟨p.2, p.1, row.confidence⟩
    | some b =>
      if b.confidence < row.confidence then some ⟨p.2, p.1, row.confidence⟩
      else some b

/-- BirdAnalyzer.analyze over the structured prediction rows: the
highest-confidence detection at or above the threshold, or none. -/
def analyze (predictions : List Prediction) : Option BirdDetection :=
  predictions.foldl analyze_step none

/-- Alert threshold from pipeline.py: five minutes. -/
def ERROR_ALERT_THRESHOLD : ℚ := 5 * 60

/-- Health tracking state of Pipeline.run: the time of the last successful
cycle and the alert-suppression flag. -/
structure HealthState where
  last_success : ℚ
  error_alerted : Bool
  deriving DecidableEq, Repr

/-- Outcome of one poll cycle as seen by the run loop. -/
inductive CycleOutcome where
  | success
  | failure
  deriving DecidableEq, Repr

/-- One iteration of the Pipeline.run loop: a successful cycle records the
current time and clears the suppression flag; a failing cycle sends an
alert exactly when the elapsed time since the last success exceeds the
threshold and no alert is pending, then sets the flag.  The returned Bool
is whether an alert notification was sent. -/
def run_step (st : HealthState) (now : ℚ) (oc : CycleOutcome) :
    HealthState × Bool :=
  match oc with
  | CycleOutcome.success => ({ last_success := now, error_alerted := false }, false)
  | CycleOutcome.failure =>
    if ERROR_ALERT_THRESHOLD < now - st.last_success ∧ st.error_alerted = false then
      ({ st with error_alerted := true }, true)
    else (st, false)

/-- Iterated run loop over a list of cycle times and outcomes, counting the
alert notifications sent. -/
def run_steps (st : HealthState) : List (ℚ × CycleOutcome) → HealthState × Nat
  | [] => (st, 0)
  | (now, oc) :: rest =>
    let p := run_step st now oc
    let q := run_steps p.1 rest
    (q.1, (if p.2 then 1 else 0) + q.2)

/-! Concrete scenarios used to instantiate the theorems below. -/

/-- A motion event with an unseen trace id and no vendor bird id. -/
def wEvent : MotionEvent := ⟨"t1", 0, "cam", "", "", []⟩

/-- A vision result identifying a bird with a high-confidence label. -/
def wVisionHigh : VisionResult :=
  ⟨true, some "Blue Jay", some "Cyanocitta cristata", some "high"⟩

/-- Effect oracle: keyshot downloaded, vision identified a bird, no video. -/
def wInpHigh : EventInputs := ⟨some "img", some wVisionHigh, none⟩

/-- Effect oracle: every external effect failed or was skipped. -/
def wInpEmpty : EventInputs := ⟨none, none, none⟩

/-- A previously persisted sighting of the same species. -/
def wRowPrior : SightingRow :=
  ⟨"p0", "t0", some "Blue Jay", some "Cyanocitta cristata", none, 0, "cam",
   none, none, none, true⟩

/-- A database already holding one Blue Jay sighting. -/
def wDbPrior : DBState := ⟨[wRowPrior], 7⟩

/-- A database already holding a row for trace t1. -/
def wDbDup : DBState :=
  ⟨[⟨"a1", "t1", none, none, none, 0, "cam", none, none, none, false⟩], 3⟩

/-- A second database already holding a row for trace t9. -/
def wDbDup2 : DBState :=
  ⟨[⟨"b1", "t9", none, none, none, 0, "cam2", none, none, none, false⟩], 5⟩

/-- First event of a two-event cycle. -/
def wEvA : MotionEvent := ⟨"tA", 0, "camA", "", "", []⟩

/-- Second event of a two-event cycle. -/
def wEvB : MotionEvent := ⟨"tB", 0, "", "", "", []⟩

/-- Per-event processing step whose species resolution raises on the event
with the given trace id, and otherwise runs _process_event with the given
effect oracle. -/
def proc_resolver_raises (bad : String) (inp : EventInputs) :
    DBState → MotionEvent → Except String DBState :=
  fun db e =>
    if e.trace_id == bad then Except.error "resolver exception"
    else
      match process_event db e inp with
      | Except.error m => Except.error m
      | Except.ok (db', _) => Except.ok db'

/-- A credential state holding a cached token valid until time 100. -/
def wAuthCached : AuthState := ⟨some "cached", 100, some ("cached", 100)⟩

/-- A credential state whose cached token expired at time 10. -/
def wAuthExpired : AuthState := ⟨some "old", 10, some ("old", 10)⟩

/-- A response body carrying one of the fixed auth error codes. -/
def wAuthErrBody : ApiBody := ⟨some (-1025), none, none⟩

/-- A response body signalling success. -/
def wOkBody : ApiBody := ⟨some 0, none, some "ok"⟩

/-! Helper lemmas about the embedded database operations. -/

/-- Row created by insert_sighting: species columns NULL, lifer flag off. -/
def newRow (db : DBState) (trace_id : String) (timestamp : ℚ)
    (device_name : String) (image_path : Option String) : SightingRow :=
  { id := "s" ++ toString db.nextId, trace_id := trace_id, species := none,
    species_latin := none, confidence := none, timestamp := timestamp,
    device_name := device_name, video_path := none, image_path := image_path,
    audio_path := none, is_lifer := false }

theorem insert_sighting_ok (db : DBState) (t : String) (ts : ℚ) (dev : String)
    (img : Option String) (h : has_trace_id db t = false) :
    insert_sighting db t ts dev img =
      Except.ok ("s" ++ toString db.nextId,
        ⟨db.sightings ++ [newRow db t ts dev img], db.nextId + 1⟩) := by
  rw [has_trace_id] at h
  simp [insert_sighting, h, newRow]

theorem list_any_congr {α : Type} (l : List α) (p q : α → Bool)
    (h : ∀ a ∈ l, p a = q a) : l.any p = l.any q := by
  induction l with
  | nil => rfl
  | cons a l ih =>
    simp only [List.any_cons, h a (by simp), ih (fun b hb => h b (by simp [hb]))]

theorem list_filter_length_congr {α : Type} (l : List α) (p q : α → Bool)
    (h : ∀ a ∈ l, p a = q a) :
    (l.filter p).length = (l.filter q).length := by
  induction l with
  | nil => rfl
  | cons a l ih =>
    have ht := h a (by simp)
    have ih' := ih (fun b hb => h b (by simp [hb]))
    by_cases hp : p a = true
    · simp [List.filter_cons, hp, ht ▸ hp, ih']
    · simp only [Bool.not_eq_true] at hp
      simp [List.filter_cons, hp, ht ▸ hp, ih']

/-- The update_species map function preserves id and trace_id. -/
theorem has_trace_id_update_species (db : DBState) (sid : String)
    (sp la : Option String) (co : Option ℚ) (li : Bool) (t : String) :
    has_trace_id (update_species db sid sp la co li) t = has_trace_id db t := by
  simp only [has_trace_id, update_species, List.any_map]
  exact list_any_congr _ _ _ (fun r _ => by by_cases h : r.id == sid <;>
    simp [Function.comp, h, speciesUpd])

theorem countTrace_update_species (db : DBState) (sid : String)
    (sp la : Option String) (co : Option ℚ) (li : Bool) (t : String) :
    countTrace (update_species db sid sp la co li) t = countTrace db t := by
  simp only [countTrace, update_species, List.filter_map, List.length_map]
  exact list_filter_length_congr _ _ _ (fun r _ => by
    by_cases h : r.id == sid <;> simp [Function.comp, h, speciesUpd])

theorem has_trace_id_update_media (db : DBState) (sid : String)
    (v a i : Option String) (t : String) :
    has_trace_id (update_media_paths db sid v a i) t = has_trace_id db t := by
  rw [update_media_paths]
  by_cases hc : v.isNone && a.isNone && i.isNone
  · simp [hc]
  · simp only [hc, Bool.false_eq_true, if_false]
    simp only [has_trace_id, List.any_map]
    exact list_any_congr _ _ _ (fun r _ => by by_cases h : r.id == sid <;>
      simp [Function.comp, h, mediaUpd])

theorem countTrace_update_media (db : DBState) (sid : String)
    (v a i : Option String) (t : String) :
    countTrace (update_media_paths db sid v a i) t = countTrace db t := by
  rw [update_media_paths]
  by_cases hc : v.isNone && a.isNone && i.isNone
  · simp [hc]
  · simp only [hc, Bool.false_eq_true, if_false]
    simp only [countTrace, List.filter_map, List.length_map]
    exact list_filter_length_congr _ _ _ (fun r _ => by
      by_cases h : r.id == sid <;> simp [Function.comp, h, mediaUpd])

theorem is_lifer_update_media (db : DBState) (sid : String)
    (v a i : Option String) (s : String) :
    is_lifer (update_media_paths db sid v a i) s = is_lifer db s := by
  rw [update_media_paths]
  by_cases hc : v.isNone && a.isNone && i.isNone
  · simp [hc]
  · simp only [hc, Bool.false_eq_true, if_false]
    simp only [is_lifer, List.any_map]
    by_cases he : s == ""
    · simp [he]
    · simp only [he, Bool.false_eq_true, if_false]
      congr 1
      exact list_any_congr _ _ _ (fun r _ => by by_cases h : r.id == sid <;>
        simp [Function.comp, h, mediaUpd])

/-- Appending a row whose species column is NULL never changes an is_lifer
query, since the query matches only rows whose species equals the
candidate. -/
theorem is_lifer_append_species_none (l : List SightingRow) (n m : Nat)
    (row : SightingRow) (hrow : row.species = none) (s : String) :
    is_lifer ⟨l ++ [row], n⟩ s = is_lifer ⟨l, m⟩ s := by
  simp [is_lifer, List.any_append, hrow]

theorem countTrace_append (l : List SightingRow) (n m : Nat)
    (row : SightingRow) (t : String) :
    countTrace ⟨l ++ [row], n⟩ t =
      countTrace ⟨l, m⟩ t + (if row.trace_id == t then 1 else 0) := by
  by_cases h : row.trace_id == t <;>
    simp [countTrace, List.filter_append, List.filter_cons, h]

theorem has_trace_id_append (l : List SightingRow) (n m : Nat)
    (row : SightingRow) (t : String) :
    has_trace_id ⟨l ++ [row], n⟩ t =
      (has_trace_id ⟨l, m⟩ t || (row.trace_id == t)) := by
  simp [has_trace_id, List.any_append]

theorem update_species_mem (db : DBState) (sid : String) (sp la : Option String)
    (co : Option ℚ) (li : Bool) (r : SightingRow) (hr : r ∈ db.sightings)
    (hid : r.id = sid) :
    speciesUpd sp la co li r ∈ (update_species db sid sp la co li).sightings := by
  simp only [update_species, List.mem_map]
  exact ⟨r, hr, by simp [hid]⟩

theorem update_media_mem (db : DBState) (sid : String) (v a i : Option String)
    (r : SightingRow) (hr : r ∈ db.sightings) :
    ∃ r' ∈ (update_media_paths db sid v a i).sightings,
      r'.id = r.id ∧ r'.trace_id = r.trace_id ∧ r'.species = r.species ∧
      r'.species_latin = r.species_latin ∧
      r'.confidence = r.confidence ∧ r'.is_lifer = r.is_lifer := by
  rw [update_media_paths]
  by_cases hc : v.isNone && a.isNone && i.isNone
  · exact ⟨r, by simp [hc, hr]⟩
  · simp only [hc, Bool.false_eq_true, if_false]
    by_cases h : r.id == sid
    · refine ⟨mediaUpd v a i r, ?_, by simp [mediaUpd], by simp [mediaUpd],
        by simp [mediaUpd], by simp [mediaUpd], by simp [mediaUpd], by simp [mediaUpd]⟩
      simp only [List.mem_map]
      exact ⟨r, hr, by simp [h]⟩
    · refine ⟨r, ?_, rfl, rfl, rfl, rfl, rfl, rfl⟩
      simp only [List.mem_map]
      exact ⟨r, hr, by simp [h]⟩

/-- Case analysis of the vision branch. -/
theorem vision_resolution_cases (db1 : DBState) (ip : Option String)
    (vis : Option VisionResult) :
    vision_resolution db1 ip vis = (none, none, none, false) ∨
    (∃ v s, vis = some v ∧ v.is_bird = true ∧ v.species = some s ∧ s ≠ "" ∧
      vision_resolution db1 ip vis =
        (some s, v.species_latin, some (confidence_map v.confidence),
         is_lifer db1 s)) := by
  rcases ip with _ | p
  · exact Or.inl rfl
  · rcases vis with _ | v
    · exact Or.inl rfl
    · by_cases hb : v.is_bird && optStrTruthy v.species
      · have hbb : v.is_bird = true := by
          simp only [Bool.and_eq_true] at hb; exact hb.1
        have hsp : optStrTruthy v.species = true := by
          simp only [Bool.and_eq_true] at hb; exact hb.2
        rcases hs : v.species with _ | s
        · rw [hs] at hsp; simp [optStrTruthy] at hsp
        · have hne : s ≠ "" := by
            rw [hs] at hsp; simpa [optStrTruthy] using hsp
          refine Or.inr ⟨v, s, rfl, hbb, hs, hne, ?_⟩
          simp [vision_resolution, hbb, hs, optStrTruthy, hne]
      · simp only [Bool.not_eq_true] at hb
        exact Or.inl (by simp [vision_resolution, hb])

/-- Case analysis of the vendor fallback. -/
theorem vendor_fallback_cases (db2 : DBState) (e : MotionEvent)
    (step3 : ResolvedSpecies) :
    vendor_fallback db2 e step3 = step3 ∨
    (e.bird_name ≠ "" ∧
      vendor_fallback db2 e step3 =
        (some e.bird_name, some e.bird_latin, some e.bird_confidence,
         is_lifer db2 e.bird_name)) := by
  by_cases hc : !optStrTruthy step3.1 && e.bird_name != ""
  · refine Or.inr ⟨?_, by simp [vendor_fallback, hc]⟩
    simp at hc; exact hc.2
  · simp only [Bool.not_eq_true] at hc
    exact Or.inl (by simp [vendor_fallback, hc])

theorem newRow_trace (db : DBState) (t : String) (ts : ℚ) (dev : String)
    (img : Option String) : (newRow db t ts dev img).trace_id = t := rfl

theorem newRow_species (db : DBState) (t : String) (ts : ℚ) (dev : String)
    (img : Option String) : (newRow db t ts dev img).species = none := rfl

/-- The table as of the insert answers is_lifer queries exactly as the
table before the insert: the new row has a NULL species column. -/
theorem is_lifer_db1 (db : DBState) (t : String) (ts : ℚ) (dev : String)
    (img : Option String) (s : String) :
    is_lifer ⟨db.sightings ++ [newRow db t ts dev img], db.nextId + 1⟩ s =
      is_lifer db s := by
  rw [is_lifer_append_species_none db.sightings _ db.nextId _ (newRow_species _ _ _ _ _)]

/-- The is_lifer query for a truthy species answers true exactly when no
row holds that species value. -/
theorem is_lifer_iff (db : DBState) (s : String) (h : s ≠ "") :
    is_lifer db s = true ↔ ¬∃ r ∈ db.sightings, r.species = some s := by
  simp [is_lifer, h, List.any_eq_true]

/-- Full characterization of a successful _process_event run: it adds one
row for the trace id of the event and no other, the resolved species is either
absent (lifer flag off) or a truthy species whose lifer flag is the
is_lifer query against the pre-existing rows, and the final table holds a
row carrying exactly the resolved fields under the generated id. -/
theorem process_event_spec (db : DBState) (e : MotionEvent) (inp : EventInputs)
    (db' : DBState) (res : ProcessResult)
    (hnt : has_trace_id db e.trace_id = false)
    (hrun : process_event db e inp = Except.ok (db', res)) :
    (∀ t, countTrace db' t = countTrace db t + (if e.trace_id == t then 1 else 0)) ∧
    ((res.species = none ∧ res.is_lifer = false) ∨
      (∃ s, res.species = some s ∧ s ≠ "" ∧ res.is_lifer = is_lifer db s)) ∧
    (∃ r ∈ db'.sightings, r.id = res.sighting_id ∧ r.trace_id = e.trace_id ∧
      r.species = res.species ∧ r.confidence = res.confidence ∧
      r.is_lifer = res.is_lifer) := by
  obtain ⟨ip, vis, vp⟩ := inp
  unfold process_event at hrun
  rw [insert_sighting_ok db _ _ _ _ hnt] at hrun
  rcases vp with _ | vpath
  · dsimp only at hrun
    simp only [Except.ok.injEq, Prod.mk.injEq] at hrun
    obtain ⟨hdb, hres⟩ := hrun
    subst hdb; subst hres
    refine ⟨?_, ?_, ?_⟩
    · intro t
      rw [countTrace_update_species,
        countTrace_append db.sightings _ db.nextId _ t, newRow_trace]
    · dsimp only
      rcases vendor_fallback_cases _ e
          (vision_resolution ⟨db.sightings ++
            [newRow db e.trace_id e.timestamp e.device_name ip],
            db.nextId + 1⟩ ip vis) with hv | ⟨hb, hv⟩
      · rw [hv]
        rcases vision_resolution_cases ⟨db.sightings ++
            [newRow db e.trace_id e.timestamp e.device_name ip],
            db.nextId + 1⟩ ip vis with h3 | ⟨v, s, hvis, hbird, hspec, hne, h3⟩
        · rw [h3]; exact Or.inl ⟨rfl, rfl⟩
        · rw [h3]; exact Or.inr ⟨s, rfl, hne, is_lifer_db1 db _ _ _ _ s⟩
      · rw [hv]
        exact Or.inr ⟨e.bird_name, rfl, hb, is_lifer_db1 db _ _ _ _ _⟩
    · dsimp only
      refine ⟨speciesUpd _ _ _ _ (newRow db e.trace_id e.timestamp e.device_name ip),
        update_species_mem _ _ _ _ _ _ _ (by simp) rfl, ?_, ?_, ?_, ?_, ?_⟩
      · rfl
      · rfl
      · rfl
      · rfl
      · rfl
  · dsimp only at hrun
    simp only [Except.ok.injEq, Prod.mk.injEq] at hrun
    obtain ⟨hdb, hres⟩ := hrun
    subst hdb; subst hres
    refine ⟨?_, ?_, ?_⟩
    · intro t
      rw [countTrace_update_species, countTrace_update_media,
        countTrace_append db.sightings _ db.nextId _ t, newRow_trace]
    · dsimp only
      rcases vendor_fallback_cases _ e
          (vision_resolution ⟨db.sightings ++
            [newRow db e.trace_id e.timestamp e.device_name ip],
            db.nextId + 1⟩ ip vis) with hv | ⟨hb, hv⟩
      · rw [hv]
        rcases vision_resolution_cases ⟨db.sightings ++
            [newRow db e.trace_id e.timestamp e.device_name ip],
            db.nextId + 1⟩ ip vis with h3 | ⟨v, s, hvis, hbird, hspec, hne, h3⟩
        · rw [h3]; exact Or.inl ⟨rfl, rfl⟩
        · rw [h3]; exact Or.inr ⟨s, rfl, hne, is_lifer_db1 db _ _ _ _ s⟩
      · rw [hv]
        refine Or.inr ⟨e.bird_name, rfl, hb, ?_⟩
        rw [is_lifer_update_media, is_lifer_db1]
    · dsimp only
      obtain ⟨r', hr'mem, hid, htr, hsp, hla, hco, hli⟩ :=
        update_media_mem ⟨db.sightings ++
          [newRow db e.trace_id e.timestamp e.device_name ip], db.nextId + 1⟩
          ("s" ++ toString db.nextId) (some vpath) none none
          (newRow db e.trace_id e.timestamp e.device_name ip) (by simp)
      refine ⟨speciesUpd _ _ _ _ r',
        update_species_mem _ _ _ _ _ _ _ hr'mem hid, ?_, ?_, ?_, ?_, ?_⟩
      · exact hid
      · exact htr
      · rfl
      · rfl
      · rfl

/-- A _process_event run on an unseen trace id always succeeds: the insert
cannot hit the UNIQUE constraint. -/
theorem process_event_total (db : DBState) (e : MotionEvent) (inp : EventInputs)
    (hnt : has_trace_id db e.trace_id = false) :
    ∃ db' res, process_event db e inp = Except.ok (db', res) := by
  unfold process_event
  rw [insert_sighting_ok db _ _ _ _ hnt]
  exact ⟨_, _, rfl⟩

theorem has_trace_id_iff_countTrace (db : DBState) (t : String) :
    has_trace_id db t = true ↔ countTrace db t ≠ 0 := by
  simp only [has_trace_id, countTrace, List.any_eq_true, Ne,
    List.length_eq_zero, List.filter_eq_nil_iff]
  push_neg
  constructor
  · rintro ⟨r, hr, hp⟩; exact ⟨r, hr, hp⟩
  · rintro ⟨r, hr, hp⟩; exact ⟨r, hr, hp⟩

/-- Per-trace effect of one full poll cycle: a cycle never errors, a trace
already present keeps its row count, and an absent trace ends with exactly
one row exactly when some fetched event carries it. -/
theorem poll_cycle_count (cyc : List (MotionEvent × EventInputs)) (db : DBState)
    (t : String) :
    ∃ db', poll_cycle db cyc = Except.ok db' ∧
      countTrace db' t =
        (if countTrace db t = 0 then
           (if cyc.any (fun p => p.1.trace_id == t) then 1 else 0)
         else countTrace db t) := by
  induction cyc generalizing db with
  | nil =>
    refine ⟨db, rfl, ?_⟩
    by_cases h : countTrace db t = 0 <;> simp [h]
  | cons p rest ih =>
    obtain ⟨e, inp⟩ := p
    by_cases h : has_trace_id db e.trace_id
    · obtain ⟨db', hok, hcount⟩ := ih db
      refine ⟨db', by simp [poll_cycle, h, hok], ?_⟩
      rw [hcount]
      by_cases h0 : countTrace db t = 0
      · have he : (e.trace_id == t) = false := by
          rcases hbe : e.trace_id == t with _ | _
          · rfl
          · exfalso
            have := (has_trace_id_iff_countTrace db e.trace_id).mp h
            rw [eq_of_beq hbe] at this
            exact this h0
        simp only [h0, eq_self_iff_true, if_true, List.any_cons, he,
          Bool.false_or]
      · simp [h0]
    · have hnt : has_trace_id db e.trace_id = false := by
        simpa using h
      obtain ⟨db1, res, hrun⟩ := process_event_total db e inp hnt
      have hspec := process_event_spec db e inp db1 res hnt hrun
      obtain ⟨db', hok, hcount⟩ := ih db1
      refine ⟨db', ?_, ?_⟩
      · simp [poll_cycle, hnt, hrun, hok]
      · rw [hcount, hspec.1 t]
        have h0e : countTrace db e.trace_id = 0 := by
          by_contra hc
          exact absurd ((has_trace_id_iff_countTrace db e.trace_id).mpr hc) (by simp [hnt])
        by_cases hbe : (e.trace_id == t) = true
        · have : e.trace_id = t := eq_of_beq hbe
          subst this
          simp [h0e, hbe, List.any_cons]
        · have hbe' : (e.trace_id == t) = false := by
            rcases hx : e.trace_id == t with _ | _
            · rfl
            · exact absurd hx hbe
          simp only [hbe', if_false, Nat.add_zero, List.any_cons, Bool.false_or]
          by_cases h0 : countTrace db t = 0 <;> simp [h0]

/-- Once a trace holds exactly one row, any number of further poll cycles
keeps it at exactly one row. -/
theorem run_cycles_preserve (cycles : List (List (MotionEvent × EventInputs)))
    (db : DBState) (t : String) (h1 : countTrace db t = 1) :
    ∃ db', run_cycles db cycles = Except.ok db' ∧ countTrace db' t = 1 := by
  induction cycles generalizing db with
  | nil => exact ⟨db, rfl, h1⟩
  | cons c cs ih =>
    obtain ⟨db1, hok, hcnt⟩ := poll_cycle_count c db t
    rw [h1] at hcnt
    simp only [Nat.one_ne_zero, if_false] at hcnt
    obtain ⟨db', hok', h1'⟩ := ih db1 hcnt
    exact ⟨db', by simp [run_cycles, hok, hok'], h1'⟩

/-- The vision branch when the keyshot downloaded and the vision result is
an accepted bird identification. -/
theorem vision_resolution_accept (db1 : DBState) (ip : Option String)
    (v : VisionResult) (hip : ip ≠ none)
    (hacc : (v.is_bird && optStrTruthy v.species) = true) :
    vision_resolution db1 ip (some v) =
      (v.species, v.species_latin, some (confidence_map v.confidence),
       is_lifer db1 (match v.species with | some s => s | none => "")) := by
  rcases ip with _ | p
  · exact absurd rfl hip
  · simp [vision_resolution, hacc]

/-- The vendor fallback is skipped once a species was already resolved. -/
theorem vendor_fallback_skip (db2 : DBState) (e : MotionEvent)
    (step3 : ResolvedSpecies) (h : optStrTruthy step3.1 = true) :
    vendor_fallback db2 e step3 = step3 := by
  simp [vendor_fallback, h]

/-! Claim theorems. -/

/-- C1: for every event e returned by the remote source, running the poll
cycle any number of times with e present in each fetched (overlapping)
window creates exactly one persisted sighting row for the trace identifier
of e: the first unseen occurrence is processed and inserted, and every
later occurrence is skipped because the has_trace_id check answers true
once the sighting was inserted. -/
theorem C1_poll_cycle_idempotent_ingestion
    (cycles : List (List (MotionEvent × EventInputs))) (db0 : DBState)
    (e : MotionEvent) (h0 : countTrace db0 e.trace_id = 0)
    (hne : cycles ≠ [])
    (hpres : ∀ cyc ∈ cycles, ∃ inp, (e, inp) ∈ cyc) :
    ∃ db', run_cycles db0 cycles = Except.ok db' ∧
      countTrace db' e.trace_id = 1 := by
  rcases cycles with _ | ⟨c, cs⟩
  · exact absurd rfl hne
  · obtain ⟨inp, hmem⟩ := hpres c (by simp)
    obtain ⟨db1, hok, hcnt⟩ := poll_cycle_count c db0 e.trace_id
    have hany : c.any (fun p => p.1.trace_id == e.trace_id) = true :=
      List.any_eq_true.mpr ⟨(e, inp), hmem, by simp⟩
    simp only [h0, hany, eq_self_iff_true, if_true] at hcnt
    obtain ⟨db', hok', h1⟩ := run_cycles_preserve cs db1 e.trace_id hcnt
    exact ⟨db', by simp [run_cycles, hok, hok'], h1⟩

/-- C1 witness: two consecutive poll cycles both fetching the same event
leave exactly one sighting row for its trace id. -/
theorem C1_witness :
    ∃ db', run_cycles ⟨[], 0⟩ [[(wEvent, wInpHigh)], [(wEvent, wInpHigh)]] =
      Except.ok db' ∧ countTrace db' wEvent.trace_id = 1 :=
  C1_poll_cycle_idempotent_ingestion [[(wEvent, wInpHigh)], [(wEvent, wInpHigh)]]
    ⟨[], 0⟩ wEvent rfl (by simp)
    (by
      intro cyc hc
      simp only [List.mem_cons, List.mem_singleton, List.not_mem_nil,
        or_false] at hc
      rcases hc with rfl | rfl
      · exact ⟨wInpHigh, by simp⟩
      · exact ⟨wInpHigh, by simp⟩)

/-- C6 counterexample: calling insert_sighting with a trace identifier that
already exists raises an IntegrityError from the UNIQUE constraint; it is
not a safe no-op returning the existing sighting id. -/
theorem C6_counterexample :
    insert_sighting wDbDup "t1" 0 "cam" none =
      Except.error "IntegrityError: UNIQUE constraint failed: sightings.trace_id" := by
  rw [insert_sighting]
  simp [wDbDup]

/-- C6 (amended): calling insert_sighting with a trace identifier that
already exists in storage raises an IntegrityError and inserts nothing;
deduplication relies on the separate has_trace_id check. -/
theorem C6_duplicate_insert_raises (db : DBState) (t : String) (ts : ℚ)
    (dev : String) (img : Option String) (h : has_trace_id db t = true) :
    insert_sighting db t ts dev img =
      Except.error "IntegrityError: UNIQUE constraint failed: sightings.trace_id" := by
  rw [has_trace_id] at h
  simp [insert_sighting, h]

/-- C6 witness: concrete duplicate insert on a table holding trace t9. -/
theorem C6_witness :
    has_trace_id wDbDup2 "t9" = true ∧
    insert_sighting wDbDup2 "t9" 5 "d" none =
      Except.error "IntegrityError: UNIQUE constraint failed: sightings.trace_id" :=
  ⟨by decide, C6_duplicate_insert_raises wDbDup2 "t9" 5 "d" none (by decide)⟩

/-- C8 counterexample: with two fresh events fetched in one cycle and the
processing of the first raising a resolver exception, the cycle driver
propagates the error, so the second event is not processed in that cycle
even though processing it alone succeeds and records it. -/
theorem C8_counterexample :
    poll_cycle_with (proc_resolver_raises "tA" wInpEmpty) ⟨[], 0⟩ [wEvA, wEvB] =
      Except.error "resolver exception" ∧
    poll_cycle_with (proc_resolver_raises "tA" wInpEmpty) ⟨[], 0⟩ [wEvB] =
      Except.ok ⟨[⟨"s0", "tB", none, none, none, 0, "", none, none, none,
        false⟩], 1⟩ := by
  constructor
  · rfl
  · rfl

/-- C8 (amended): a failure while processing one new event propagates out
of the poll cycle and aborts it: the driver wraps no handler around the
per-event processing call, so the remaining new events fetched in the same
cycle are not processed in that cycle. -/
theorem C8_event_failure_aborts_cycle
    (proc : DBState → MotionEvent → Except String DBState) (db : DBState)
    (e : MotionEvent) (rest : List MotionEvent) (m : String)
    (hnt : has_trace_id db e.trace_id = false)
    (hfail : proc db e = Except.error m) :
    poll_cycle_with proc db (e :: rest) = Except.error m := by
  simp [poll_cycle_with, hnt, hfail]

/-- C8 witness: the amended statement at the concrete two-event cycle. -/
theorem C8_witness :
    poll_cycle_with (proc_resolver_raises "tA" wInpEmpty) ⟨[], 0⟩ [wEvA, wEvB] =
      Except.error "resolver exception" :=
  C8_event_failure_aborts_cycle (proc_resolver_raises "tA" wInpEmpty) ⟨[], 0⟩
    wEvA [wEvB] "resolver exception" (by decide) (by decide)

/-- C9: whenever the vision result supplies the resolved species, the
stored numeric confidence is exactly the fixed anchor for its label: 9/10
for high, 7/10 for medium, 4/10 for low, and 1/2 for any missing or
unrecognized label (embedding the float literals 0.9, 0.7, 0.4, 0.5). -/
theorem C9_confidence_anchor_mapping
    (db : DBState) (e : MotionEvent) (inp : EventInputs) (v : VisionResult)
    (p : String) (db' : DBState) (res : ProcessResult)
    (himg : inp.image_path = some p) (hv : inp.vision = some v)
    (hacc : (v.is_bird && optStrTruthy v.species) = true)
    (hnt : has_trace_id db e.trace_id = false)
    (hrun : process_event db e inp = Except.ok (db', res)) :
    res.confidence = some (confidence_map v.confidence) ∧
    confidence_map (some "high") = 9 / 10 ∧
    confidence_map (some "medium") = 7 / 10 ∧
    confidence_map (some "low") = 4 / 10 ∧
    (∀ l, l ≠ some "high" → l ≠ some "medium" → l ≠ some "low" →
      confidence_map l = 1 / 2) := by
  refine ⟨?_, by simp [confidence_map], by simp [confidence_map],
    by simp [confidence_map], ?_⟩
  · obtain ⟨ip, vis, vp⟩ := inp
    dsimp only at himg hv
    subst himg; subst hv
    unfold process_event at hrun
    rw [insert_sighting_ok db _ _ _ _ hnt] at hrun
    have hsp : optStrTruthy v.species = true := by
      simp only [Bool.and_eq_true] at hacc; exact hacc.2
    rcases vp with _ | vpath <;>
      (dsimp only at hrun
       rw [vision_resolution_accept _ _ _ (by simp) hacc] at hrun
       rw [vendor_fallback_skip _ _ _ hsp] at hrun
       simp only [Except.ok.injEq, Prod.mk.injEq] at hrun
       obtain ⟨hdb, hres⟩ := hrun
       subst hres
       rfl)
  · intro l h1 h2 h3
    rcases l with _ | s
    · simp [confidence_map]
    · have e1 : s ≠ "high" := fun h => h1 (by rw [h])
      have e2 : s ≠ "medium" := fun h => h2 (by rw [h])
      have e3 : s ≠ "low" := fun h => h3 (by rw [h])
      simp [confidence_map, e1, e2, e3]

/-- C9 witness: a concrete run where the vision result with label high
supplies the species; the stored confidence is the mapped anchor 9/10. -/
theorem C9_witness :
    ∃ db' res, process_event ⟨[], 0⟩ wEvent wInpHigh = Except.ok (db', res) ∧
      res.confidence = some (confidence_map (some "high")) ∧
      confidence_map (some "high") = 9 / 10 := by
  have hrun : process_event ⟨[], 0⟩ wEvent wInpHigh =
      Except.ok (⟨[⟨"s0", "t1", some "Blue Jay", some "Cyanocitta cristata",
          some (confidence_map (some "high")), 0, "cam", none, some "img",
          none, true⟩], 1⟩,
        ⟨"s0", some "Blue Jay", some "Cyanocitta cristata",
          some (confidence_map (some "high")), true⟩) := rfl
  have happ := C9_confidence_anchor_mapping ⟨[], 0⟩ wEvent wInpHigh wVisionHigh
    "img" _ _ rfl rfl (by decide) rfl hrun
  exact ⟨_, _, hrun, happ.1, happ.2.1⟩

/-- C4: for every processed event whose species is resolved, the persisted
is_lifer flag is true exactly when, at the moment it was computed, no
previously persisted sighting row held exactly that species value,
regardless of confidence differences; the flag is stored on the row of the
event. -/
theorem C4_lifer_flag_iff_no_prior_sighting
    (db : DBState) (e : MotionEvent) (inp : EventInputs) (db' : DBState)
    (res : ProcessResult) (s : String)
    (hnt : has_trace_id db e.trace_id = false)
    (hrun : process_event db e inp = Except.ok (db', res))
    (hs : res.species = some s) :
    (res.is_lifer = true ↔ ¬∃ r ∈ db.sightings, r.species = some s) ∧
    (∃ r ∈ db'.sightings, r.id = res.sighting_id ∧ r.species = some s ∧
      r.is_lifer = res.is_lifer) := by
  obtain ⟨_, hdisj, hrow⟩ := process_event_spec db e inp db' res hnt hrun
  constructor
  · rcases hdisj with ⟨hnone, _⟩ | ⟨s', hsp, hne, hlif⟩
    · rw [hnone] at hs; exact absurd hs (by simp)
    · rw [hsp] at hs
      injection hs with hss
      subst hss
      rw [hlif]
      exact is_lifer_iff db s' hne
  · obtain ⟨r, hrm, h1, _, h3, _, h5⟩ := hrow
    exact ⟨r, hrm, h1, by rw [h3, hs], h5⟩

/-- C4 witness: processing a Blue Jay event against a table that already
holds a Blue Jay sighting yields is_lifer false. -/
theorem C4_witness :
    ∃ db' res, process_event wDbPrior wEvent wInpHigh = Except.ok (db', res) ∧
      res.species = some "Blue Jay" ∧ res.is_lifer = false := by
  have hrun : process_event wDbPrior wEvent wInpHigh =
      Except.ok (⟨[wRowPrior, ⟨"s7", "t1", some "Blue Jay",
          some "Cyanocitta cristata", some (confidence_map (some "high")), 0,
          "cam", none, some "img", none, false⟩], 8⟩,
        ⟨"s7", some "Blue Jay", some "Cyanocitta cristata",
          some (confidence_map (some "high")), false⟩) := rfl
  have happ := C4_lifer_flag_iff_no_prior_sighting wDbPrior wEvent wInpHigh _ _
    "Blue Jay" (by decide) hrun rfl
  refine ⟨_, _, hrun, rfl, ?_⟩
  by_cases hb : (⟨"s7", some "Blue Jay", some "Cyanocitta cristata",
      some (confidence_map (some "high")), false⟩ : ProcessResult).is_lifer = true
  · exact absurd hb
      (fun h => (happ.1.mp h) ⟨wRowPrior, by simp [wDbPrior], rfl⟩)
  · simp

/-- C10: the is_lifer computation for the event being processed never
counts the own sighting row of that event: the row is inserted with a NULL
species column before the query runs and the query matches only rows whose
species equals the candidate, so a false flag implies a distinct, earlier
persisted sighting of the same species. -/
theorem C10_not_lifer_only_from_earlier_row
    (db : DBState) (e : MotionEvent) (inp : EventInputs) (db' : DBState)
    (res : ProcessResult) (s : String)
    (hnt : has_trace_id db e.trace_id = false)
    (hrun : process_event db e inp = Except.ok (db', res))
    (hs : res.species = some s) (hnl : res.is_lifer = false) :
    (∃ r ∈ db.sightings, r.species = some s) ∧
    (∀ q, is_lifer ⟨db.sightings ++
        [newRow db e.trace_id e.timestamp e.device_name inp.image_path],
        db.nextId + 1⟩ q = is_lifer db q) := by
  refine ⟨?_, fun q => is_lifer_db1 db _ _ _ _ q⟩
  obtain ⟨_, hdisj, _⟩ := process_event_spec db e inp db' res hnt hrun
  rcases hdisj with ⟨hnone, _⟩ | ⟨s', hsp, hne, hlif⟩
  · rw [hnone] at hs; exact absurd hs (by simp)
  · rw [hsp] at hs
    injection hs with hss
    subst hss
    rw [hnl] at hlif
    have hnot : ¬(is_lifer db s' = true) := by simp [hlif.symm]
    exact not_not.mp ((not_congr (is_lifer_iff db s' hne)).mp hnot)

/-- C10 witness: the concrete not-a-lifer run is explained by the earlier
Blue Jay row, and the inserted row never affects the query. -/
theorem C10_witness :
    (∃ r ∈ wDbPrior.sightings, r.species = some "Blue Jay") ∧
    (∀ q, is_lifer ⟨wDbPrior.sightings ++
        [newRow wDbPrior wEvent.trace_id wEvent.timestamp wEvent.device_name
          wInpHigh.image_path], wDbPrior.nextId + 1⟩ q =
      is_lifer wDbPrior q) := by
  have hrun : process_event wDbPrior wEvent wInpHigh =
      Except.ok (⟨[wRowPrior, ⟨"s7", "t1", some "Blue Jay",
          some "Cyanocitta cristata", some (confidence_map (some "high")), 0,
          "cam", none, some "img", none, false⟩], 8⟩,
        ⟨"s7", some "Blue Jay", some "Cyanocitta cristata",
          some (confidence_map (some "high")), false⟩) := rfl
  exact C10_not_lifer_only_from_earlier_row wDbPrior wEvent wInpHigh _ _
    "Blue Jay" (by decide) hrun rfl rfl

theorem run_step_failure_alerted (st : HealthState) (now : ℚ)
    (h : st.error_alerted = true) :
    run_step st now CycleOutcome.failure = (st, false) := by
  simp only [run_step]
  rw [if_neg (fun hc => by rw [h] at hc; exact absurd hc.2 (by simp))]

theorem run_steps_failures_alerted (st : HealthState) (ts : List ℚ)
    (h : st.error_alerted = true) :
    run_steps st (ts.map (fun x => (x, CycleOutcome.failure))) = (st, 0) := by
  induction ts with
  | nil => rfl
  | cons x rest ih =>
    simp only [List.map_cons, run_steps, run_step_failure_alerted st x h, ih]
    simp

theorem run_steps_failures (t0 : ℚ) (ts : List ℚ) :
    run_steps ⟨t0, false⟩ (ts.map (fun x => (x, CycleOutcome.failure))) =
      (⟨t0, ts.any (fun x => decide (ERROR_ALERT_THRESHOLD < x - t0))⟩,
       if ts.any (fun x => decide (ERROR_ALERT_THRESHOLD < x - t0)) then 1
       else 0) := by
  induction ts with
  | nil => rfl
  | cons x rest ih =>
    by_cases hx : ERROR_ALERT_THRESHOLD < x - t0
    · have hstep : run_step ⟨t0, false⟩ x CycleOutcome.failure =
          (⟨t0, true⟩, true) := by
        simp only [run_step]
        rw [if_pos ⟨hx, trivial⟩]
      simp only [List.map_cons, run_steps, hstep,
        run_steps_failures_alerted ⟨t0, true⟩ rest rfl]
      simp [List.any_cons, hx]
    · have hstep : run_step ⟨t0, false⟩ x CycleOutcome.failure =
          (⟨t0, false⟩, false) := by
        simp only [run_step]
        rw [if_neg (fun hc => hx hc.1)]
      simp only [List.map_cons, run_steps, hstep, ih]
      simp [List.any_cons, hx]

theorem run_steps_append (st : HealthState) (l1 l2 : List (ℚ × CycleOutcome)) :
    run_steps st (l1 ++ l2) =
      ((run_steps (run_steps st l1).1 l2).1,
       (run_steps st l1).2 + (run_steps (run_steps st l1).1 l2).2) := by
  induction l1 generalizing st with
  | nil => simp [run_steps]
  | cons p rest ih =>
    obtain ⟨now, oc⟩ := p
    simp only [List.cons_append, run_steps, List.append_eq]
    rw [ih (run_step st now oc).1]
    simp [Nat.add_assoc]



/-- C5: in the run loop, a streak of failing cycles sends exactly one
health alert when some failing cycle lies more than the five-minute
threshold after the last success, and never a second one before an
intervening success; a successful cycle resets the last-success time and
the suppression flag, so a later failure streak again sends exactly one
alert measured from that success. -/
theorem C5_health_alert_dedup (t0 s : ℚ) (fs1 fs2 : List ℚ) :
    (run_steps ⟨t0, false⟩ (fs1.map (fun x => (x, CycleOutcome.failure)))).2 =
      (if fs1.any (fun x => decide (ERROR_ALERT_THRESHOLD < x - t0)) then 1
       else 0) ∧
    (run_steps ⟨t0, false⟩
        (fs1.map (fun x => (x, CycleOutcome.failure)) ++
          ((s, CycleOutcome.success) ::
            fs2.map (fun x => (x, CycleOutcome.failure))))).2 =
      ((if fs1.any (fun x => decide (ERROR_ALERT_THRESHOLD < x - t0)) then 1
        else 0) +
       (if fs2.any (fun x => decide (ERROR_ALERT_THRESHOLD < x - s)) then 1
        else 0)) := by
  constructor
  · rw [run_steps_failures]
  · rw [run_steps_append, run_steps_failures]
    simp only [run_steps, run_step]
    rw [run_steps_failures]
    simp

/-- C7: the credential manager never returns an expired token: get_token
returns the cached token only while the current time is strictly before
the recorded expiry and otherwise performs a fresh login; the expiry of
the state a get leaves behind is always strictly in the future, set via
the conservative 23 hour TTL which is shorter than the 24 hour server
expiry; invalidate unconditionally discards the in-memory token and the
persisted cache, so the next get performs a fresh login. -/
theorem C7_credential_never_expired (st : AuthState) (now : ℚ) (tok : String) :
    (TOKEN_TTL_SECONDS = 23 * 60 * 60 ∧ TOKEN_TTL_SECONDS < 24 * 60 * 60) ∧
    now < ((get_token st now tok).2).expires_at ∧
    (∀ t, st.token = some t → t ≠ "" → now < st.expires_at →
      get_token st now tok = (t, st)) ∧
    (st.expires_at ≤ now → get_token st now tok = auth_login now tok) ∧
    (st.token = none → get_token st now tok = auth_login now tok) ∧
    ((invalidate st).token = none ∧ (invalidate st).cache = none ∧
      get_token (invalidate st) now tok = auth_login now tok) := by
  have httl : (0 : ℚ) < TOKEN_TTL_SECONDS := by norm_num [TOKEN_TTL_SECONDS]
  refine ⟨⟨rfl, by norm_num [TOKEN_TTL_SECONDS]⟩, ?_, ?_, ?_, ?_, rfl, rfl, rfl⟩
  · rcases htok : st.token with _ | t
    · simp only [get_token, htok, auth_login]
      linarith
    · by_cases hc : t ≠ "" ∧ now < st.expires_at
      · simp only [get_token, htok, if_pos hc]
        exact hc.2
      · simp only [get_token, htok, if_neg hc, auth_login]
        linarith
  · intro t ht hne hlt
    simp only [get_token, ht]
    rw [if_pos ⟨hne, hlt⟩]
  · intro hle
    rcases htok : st.token with _ | t
    · simp [get_token, htok]
    · simp only [get_token, htok]
      rw [if_neg (fun hc => absurd hc.2 (not_lt.mpr hle))]
  · intro h
    simp [get_token, h]



/-- Behaviour of the second request attempt after an invalidation: it
always closes the call at two attempts, one invalidation, and a freshly
obtained token, raising on any further auth failure. -/
theorem second_attempt_spec (stI : AuthState) (now : ℚ) (tok2 t0 : String)
    (r1 : ApiResponse) :
    (second_attempt (invalidate stI) now tok2 t0 r1).attempts = 2 ∧
    (second_attempt (invalidate stI) now tok2 t0 r1).invalidations = 1 ∧
    (second_attempt (invalidate stI) now tok2 t0 r1).tokensUsed = [t0, tok2] ∧
    (auth_fail_signal r1 = true →
      ∃ m, (second_attempt (invalidate stI) now tok2 t0 r1).result =
        Except.error m) := by
  rcases r1 with m1 | _ | b1
  · exact ⟨rfl, rfl, rfl, fun h => by simp [auth_fail_signal] at h⟩
  · exact ⟨rfl, rfl, rfl, fun h =>
      ⟨"VicoHome API returned HTML after token refresh", rfl⟩⟩
  · have hfresh : (get_token (invalidate stI) now tok2).1 = tok2 := rfl
    by_cases hb1 : is_auth_error b1
    · refine ⟨?_, ?_, ?_, fun h => ⟨"VicoHome auth failed after retry", ?_⟩⟩ <;>
        simp [second_attempt, hb1, hfresh]
    · refine ⟨?_, ?_, ?_, fun h => ?_⟩
      · simp [second_attempt, hb1]
      · simp [second_attempt, hb1]
      · simp [second_attempt, hb1, hfresh]
      · simp only [auth_fail_signal] at h
        exact absurd h (by simp [hb1])

/-- C2: every _request call makes at most two API attempts and at most one
forced re-login; a first response signalling an auth failure (auth error
code, auth keyword in the message, or an HTML payload) invalidates the
credential and retries exactly once with a freshly obtained credential; a
second auth failure of either kind raises a fatal error with no third
attempt; a first response that is normal JSON is returned from a single
attempt with no invalidation. -/
theorem C2_auth_retry_bound (st : AuthState) (now : ℚ) (tok1 tok2 : String)
    (r0 r1 : ApiResponse) :
    (request st now tok1 tok2 r0 r1).attempts ≤ 2 ∧
    (request st now tok1 tok2 r0 r1).invalidations ≤ 1 ∧
    (auth_fail_signal r0 = true →
      (request st now tok1 tok2 r0 r1).attempts = 2 ∧
      (request st now tok1 tok2 r0 r1).invalidations = 1 ∧
      (request st now tok1 tok2 r0 r1).tokensUsed =
        [(get_token st now tok1).1, tok2]) ∧
    (auth_fail_signal r0 = true → auth_fail_signal r1 = true →
      ∃ m, (request st now tok1 tok2 r0 r1).result = Except.error m) ∧
    (∀ b, r0 = ApiResponse.json b → is_auth_error b = false →
      (request st now tok1 tok2 r0 r1).result = Except.ok b ∧
      (request st now tok1 tok2 r0 r1).attempts = 1 ∧
      (request st now tok1 tok2 r0 r1).invalidations = 0) := by
  rcases r0 with m0 | _ | b0
  · refine ⟨by simp [request], by simp [request], ?_, ?_, ?_⟩
    · intro h; simp [auth_fail_signal] at h
    · intro h; simp [auth_fail_signal] at h
    · intro b hb; exact absurd hb (by simp)
  · have heq : request st now tok1 tok2 ApiResponse.html r1 =
        second_attempt (invalidate (get_token st now tok1).2) now tok2
          (get_token st now tok1).1 r1 := rfl
    obtain ⟨h1, h2, h3, h4⟩ := second_attempt_spec (get_token st now tok1).2
      now tok2 (get_token st now tok1).1 r1
    rw [heq]
    exact ⟨by rw [h1], by rw [h2], fun _ => ⟨h1, h2, h3⟩, fun _ => h4,
      fun b hb => absurd hb (by simp)⟩
  · by_cases hb0 : is_auth_error b0
    · have heq : request st now tok1 tok2 (ApiResponse.json b0) r1 =
          second_attempt (invalidate (get_token st now tok1).2) now tok2
            (get_token st now tok1).1 r1 := by
        simp [request, hb0]
      obtain ⟨h1, h2, h3, h4⟩ := second_attempt_spec (get_token st now tok1).2
        now tok2 (get_token st now tok1).1 r1
      rw [heq]
      refine ⟨by rw [h1], by rw [h2], fun _ => ⟨h1, h2, h3⟩, fun _ => h4, ?_⟩
      intro b hb hnb
      injection hb with hb
      subst hb
      exact absurd hnb (by simp [hb0])
    · refine ⟨by simp [request, hb0], by simp [request, hb0], ?_, ?_, ?_⟩
      · intro h
        simp [auth_fail_signal, hb0] at h
      · intro h
        simp [auth_fail_signal, hb0] at h
      · intro b hb hnb
        injection hb with hb
        subst hb
        exact ⟨by simp [request, hb0], by simp [request, hb0],
          by simp [request, hb0]⟩

/-- C2 witness: a cached credential, a first attempt answered with a fixed
auth error code and a second attempt answered with HTML: two attempts, one
invalidation, the cached token then the fresh one, and a fatal error. -/
theorem C2_witness :
    auth_fail_signal (ApiResponse.json wAuthErrBody) = true ∧
    (request wAuthCached 0 "f1" "f2" (ApiResponse.json wAuthErrBody)
        ApiResponse.html).attempts = 2 ∧
    (request wAuthCached 0 "f1" "f2" (ApiResponse.json wAuthErrBody)
        ApiResponse.html).invalidations = 1 ∧
    (request wAuthCached 0 "f1" "f2" (ApiResponse.json wAuthErrBody)
        ApiResponse.html).tokensUsed = ["cached", "f2"] ∧
    (∃ m, (request wAuthCached 0 "f1" "f2" (ApiResponse.json wAuthErrBody)
        ApiResponse.html).result = Except.error m) := by
  have happ := C2_auth_retry_bound wAuthCached 0 "f1" "f2"
    (ApiResponse.json wAuthErrBody) ApiResponse.html
  have hsig : auth_fail_signal (ApiResponse.json wAuthErrBody) = true := by
    decide
  obtain ⟨ha2, hi1, htk⟩ := happ.2.2.1 hsig
  refine ⟨hsig, ha2, hi1, ?_, happ.2.2.2.1 hsig rfl⟩
  rw [htk]
  have hcached : (get_token wAuthCached 0 "f1").1 = "cached" := by decide
  rw [hcached]

/-- C7 witness: an expired cached credential forces a fresh login, and an
invalidated credential state holds no token and also forces a login. -/
theorem C7_witness :
    get_token wAuthExpired 20 "new" = auth_login 20 "new" ∧
    (invalidate wAuthExpired).token = none ∧
    get_token (invalidate wAuthExpired) 20 "new" = auth_login 20 "new" := by
  have happ := C7_credential_never_expired wAuthExpired 20 "new"
  exact ⟨happ.2.2.2.1 (by norm_num [wAuthExpired]), happ.2.2.2.2.2.1,
    happ.2.2.2.2.2.2.2⟩

/-- C3: evaluation at the failing input.  The acoustic classifier, fed the
audio of the event, returns an accepted detection (confidence 3/5 at or
above the 1/2 threshold) for a different species, yet the pipeline
resolves the species from the image classifier: _process_event consumes no
acoustic input at all, so the acoustic result can never take precedence. -/
theorem C3_pipeline_resolver_lacks_acoustic_step :
    analyze [⟨"Turdus migratorius_American Robin", 3 / 5⟩] =
      some ⟨"American Robin", "Turdus migratorius", 3 / 5⟩ ∧
    BIRDNET_CONFIDENCE_THRESHOLD ≤ 3 / 5 ∧
    (∃ db' res, process_event ⟨[], 0⟩ wEvent wInpHigh = Except.ok (db', res) ∧
      res.species = some "Blue Jay" ∧ res.species ≠ some "American Robin") := by
  refine ⟨?_, by norm_num [BIRDNET_CONFIDENCE_THRESHOLD], ?_⟩
  · simp [analyze, analyze_step, BIRDNET_CONFIDENCE_THRESHOLD,
      split_species_name, splitOnceChar]
    norm_num
  · refine ⟨⟨[⟨"s0", "t1", some "Blue Jay", some "Cyanocitta cristata",
        some (confidence_map (some "high")), 0, "cam", none, some "img",
        none, true⟩], 1⟩,
      ⟨"s0", some "Blue Jay", some "Cyanocitta cristata",
        some (confidence_map (some "high")), true⟩, rfl, rfl, by simp⟩


end Freebird
